import Mathlib

/-!
Verification development for the Cantera `.cti` input-file compiler
(`src/interfaces/python/ctml_writer.py`).

The Python source is shallowly embedded here: module-level mutable state
(unit defaults, registries) becomes explicit state records threaded through
the functions, Python floats become exact rationals (`ℚ`), and fallible
code paths (uncaught exceptions: `CTI_Error` raised outside any handler,
`KeyError`, `ValueError`, `AttributeError`) become `Except PyErr`.
Comments quote the relevant source lines where the Python semantics are
subtle (Python 2 scoping, bare `except:` clauses, method resolution).
-/

namespace Ctml

/-- Uncaught Python exceptions of the source, as an error type.
`ctiError` models `raise CTI_Error(msg)` reaching top level (fatal);
`keyError`, `valueError`, `attributeError` model the builtin exceptions
raised by `del d[k]` on a missing key, tuple unpacking of `str.split`,
and attribute access on `None`. `nonIntegerPow` marks the one place the
`ℚ` model is partial: `math.pow` with a non-integer exponent returns an
irrational float, which this rational embedding does not represent (no
claim exercises it). -/
inductive PyErr where
  | ctiError (msg : String)
  | keyError
  | valueError
  | attributeError
  | nonIntegerPow
  deriving DecidableEq, Repr

/-! ### String helpers (Python `str` operations used by the source) -/

/-- Characters Python `str.split()` (no argument) splits on. -/
def isWs (c : Char) : Bool :=
  c = ' ' || c = '\t' || c = '\n' || c = '\r'

/-- Auxiliary for `splitWs`: accumulates the current (reversed) token. -/
def splitWsAux : List Char → List Char → List (List Char)
  | [], acc => if acc.isEmpty then [] else [acc.reverse]
  | c :: rest, acc =>
    if isWs c then
      if acc.isEmpty then splitWsAux rest []
      else acc.reverse :: splitWsAux rest []
    else splitWsAux rest (c :: acc)

/-- Python `s.split()`: split on runs of whitespace, dropping empty tokens. -/
def splitWs (s : List Char) : List (List Char) :=
  splitWsAux s []

/-- Python `s.replace(' + ', ' ')`: replace each non-overlapping occurrence,
scanning left to right (source `getReactionSpecies`, line 385). -/
def replacePlus : List Char → List Char
  | ' ' :: '+' :: ' ' :: rest => ' ' :: replacePlus rest
  | c :: rest => c :: replacePlus rest
  | [] => []

/-- Python `s.find(sub)`: index of the first occurrence of `d` in `s`,
`none` when absent (the source tests `find(e) >= 0`). -/
def findSub (d : List Char) : List Char → Option Nat
  | [] => if d.isEmpty then some 0 else none
  | c :: t =>
    if d.isPrefixOf (c :: t) then some 0
    else (findSub d t).map (· + 1)

/-- Numeric value of a digit string. -/
def digitsVal (ds : List Char) : Nat :=
  ds.foldl (fun a c => 10 * a + (c.toNat - '0'.toNat)) 0

/-- Python `float(t)` on a stripped token: optional sign, decimal digits
with an optional single point, optional exponent part. Returns `none` when
`float` would raise `ValueError`. (The special spellings `inf`/`nan` and
embedded underscores are not modelled; no token in the repository or the
claims uses them.) -/
def parseFloat (t : List Char) : Option ℚ :=
  let (sign, t1) : ℚ × List Char :=
    match t with
    | '+' :: r => (1, r)
    | '-' :: r => (-1, r)
    | r => (1, r)
  let intDs := t1.takeWhile Char.isDigit
  let t2 := t1.dropWhile Char.isDigit
  let (fracDs, t3) : List Char × List Char :=
    match t2 with
    | '.' :: r => (r.takeWhile Char.isDigit, r.dropWhile Char.isDigit)
    | r => ([], r)
  if intDs.isEmpty && fracDs.isEmpty then none
  else
    let mant : ℚ := (digitsVal (intDs ++ fracDs) : ℚ) / (10 : ℚ) ^ fracDs.length
    match t3 with
    | [] => some (sign * mant)
    | e :: r =>
      if e = 'e' || e = 'E' then
        let (esign, r1) : ℤ × List Char :=
          match r with
          | '+' :: rr => (1, rr)
          | '-' :: rr => (-1, rr)
          | rr => (1, rr)
        let eDs := r1.takeWhile Char.isDigit
        let r2 := r1.dropWhile Char.isDigit
        if eDs.isEmpty || !r2.isEmpty then none
        else some (sign * mant * (10 : ℚ) ^ (esign * (digitsVal eDs : ℤ)))
      else none

/-! ### Association lists

Python dictionaries are modelled as association lists with unique keys,
iterated in insertion order. (Python 2 dictionaries iterate in hash-table
order; every property proved below either is order-independent or is read
as quantifying over the possible iteration orders, of which the insertion
order exhibited here is one.) -/

section Assoc

variable {β : Type}

/-- Python `k in d`. -/
def hasKey (d : List (String × β)) (k : String) : Bool :=
  d.any (fun p => p.1 == k)

/-- Python `d[k]`, with a default for the (unreachable) missing case. -/
def alookup (d : List (String × β)) (k : String) (dflt : β) : β :=
  match d.find? (fun p => p.1 == k) with
  | some p => p.2
  | none => dflt

/-- Python `d[k] = v`: replace the value if the key is present, else append. -/
def aset (d : List (String × β)) (k : String) (v : β) : List (String × β) :=
  if hasKey d k then d.map (fun p => if p.1 == k then (p.1, v) else p)
  else d ++ [(k, v)]

/-- Python `del d[k]`: raises `KeyError` when the key is absent. -/
def delKey (d : List (String × β)) (k : String) : Except PyErr (List (String × β)) :=
  if hasKey d k then .ok (d.filter (fun p => p.1 != k))
  else .error .keyError

end Assoc

/-- Python `d[t] += n` when present else `d[t] = n`
(the two branches of the species case in `getReactionSpecies`). -/
def addCoeff (d : List (String × ℚ)) (t : String) (n : ℚ) : List (String × ℚ) :=
  if hasKey d t then d.map (fun p => if p.1 == t then (p.1, p.2 + n) else p)
  else d ++ [(t, n)]

/-! ### `getReactionSpecies` (source lines 372-415) -/

/-- One token step of `getReactionSpecies`. State: the accumulated map and
the pending coefficient `n` (`n = 1.0` initially).

Source semantics, traced carefully: the token conversion sits in
`try: n = float(t); if n < 0.0: raise CTI_Error(...)` followed by a bare
`except:` holding the species-name branch. `CTI_Error` is an ordinary
class whose constructor merely prints a message, and the `raise` is inside
the very `try` whose bare `except:` catches everything — so a negative
numeric token does NOT abort: the assignment `n = float(t)` has already
happened, the raised `CTI_Error` is swallowed, and control falls into the
species branch, which records the token itself as a species with the
negative value as its coefficient. A genuinely non-numeric token enters
the species branch with `n` unchanged (the assignment raised before
completing). -/
def speciesStep (st : List (String × ℚ) × ℚ) (t : String) : List (String × ℚ) × ℚ :=
  match parseFloat t.data with
  | some v =>
    if 0 ≤ v then (st.1, v)
    else (addCoeff st.1 t v, 1)
  | none => (addCoeff st.1 t st.2, 1)

/-- `getReactionSpecies(s)`: strip isolated `+` separators, tokenize, and
fold `speciesStep` with pending coefficient 1.0 (source lines 385-415). -/
def getReactionSpecies (s : List Char) : List (String × ℚ) :=
  (((splitWs (replacePlus s)).map (fun t => String.mk t)).foldl speciesStep ([], 1)).1

/-- String-level wrapper for `getReactionSpecies`. -/
def getReactionSpeciesS (s : String) : List (String × ℚ) :=
  getReactionSpecies s.data

/-! ### Equation splitting (`reaction.__init__`, source lines 1005-1014) -/

/-- The delimiter priority list `['<=>', '=>', '=']` of the source. -/
def delimList : List (List Char) :=
  ["<=>".data, "=>".data, "=".data]

/-- The first delimiter, in priority order, occurring in the equation
(the source tests `self._e.find(e) >= 0` for each in turn). -/
def firstDelim (s : List Char) : Option (List Char) :=
  delimList.find? (fun d => (findSub d s).isSome)

/-- `r, p = self._e.split(e)` for the chosen delimiter, with the source's
reversibility flag `self.rev = 1 if e in ['<=>','='] else 0`.

Python notes: the two-target unpacking of `split(e)` succeeds only when
`e` occurs exactly once; a second occurrence yields three parts and a
fatal `ValueError`. When no delimiter is present the source leaves
`self.rev` unassigned and the failure surfaces later, as an
`AttributeError` at the first `self.rev` read in `reaction.build`;
the error is produced immediately here. -/
def splitEquation (s : List Char) : Except PyErr (List Char × List Char × Bool) :=
  match firstDelim s with
  | none => .error .attributeError
  | some d =>
    match findSub d s with
    | none => .error .attributeError
    | some i =>
      let r := s.take i
      let p := s.drop (i + d.length)
      if (findSub d p).isSome then .error .valueError
      else .ok (r, p, d == "<=>".data || d == "=".data)

/-! ### Unit defaults (`units`, source lines 196-290, and the scale tables
`_length`, `_moles`, `_time`, lines 205-207) -/

/-- The process-wide default-unit state. Only the fields read by
`reaction.unit_factor` and `Arrhenius.build` are modelled: `_ulen`,
`_umol`, `_utime`, `_ue` (the activation-energy default attached to a
bare-number `E`). -/
structure UnitState where
  ulen : String
  umol : String
  utime : String
  ue : String
  deriving DecidableEq, Repr

/-- The module-level initial defaults: metres, kilomoles, seconds, J/kmol. -/
def initUnits : UnitState :=
  { ulen := "m", umol := "kmol", utime := "s", ue := "J/kmol" }

/-- `_length = {'cm':0.01, 'm':1.0, 'mm':0.001}` as exact rationals. -/
def lengthScale : String → Option ℚ
  | "cm" => some (1 / 100)
  | "m" => some 1
  | "mm" => some (1 / 1000)
  | _ => none

/-- `_moles = {'kmol':1.0, 'mol':0.001, 'molec':1.0/6.023e26}`. The float
quotient `1.0/6.023e26` is modelled by the exact rational. -/
def molesScale : String → Option ℚ
  | "kmol" => some 1
  | "mol" => some (1 / 1000)
  | "molec" => some (1 / (6023 * 10 ^ 23))
  | _ => none

/-- `_time = {'s':1.0, 'min':60.0, 'hr':3600.0}`. -/
def timeScale : String → Option ℚ
  | "s" => some 1
  | "min" => some 60
  | "hr" => some 3600
  | _ => none

/-- Arguments of the `units(...)` directive (the fields this model reads;
a `none` field models the falsy default `''`, which leaves the
corresponding global unchanged). -/
structure UnitsArgs where
  length : Option String := none
  quantity : Option String := none
  time : Option String := none
  act_energy : Option String := none
  deriving DecidableEq, Repr

/-- The `units()` directive: overwrite exactly the supplied defaults
(source lines 283-290: `if length: _ulen = length` and so on). -/
def applyUnits (u : UnitState) (a : UnitsArgs) : UnitState :=
  { ulen := a.length.getD u.ulen
    umol := a.quantity.getD u.umol
    utime := a.time.getD u.utime
    ue := a.act_energy.getD u.ue }

/-- Option-to-Except lifting for Python dictionary reads that raise. -/
def req (o : Option α) (e : PyErr) : Except PyErr α :=
  match o with
  | some a => .ok a
  | none => .error e

/-- Rational exponent of `math.pow`, defined on integer exponents.
A non-integer exponent makes `math.pow` produce an irrational float that
the rational model cannot represent; it is flagged, and no claim reaches
that case (it would need a fractional stoichiometric coefficient). -/
def qpow (b : ℚ) (e : ℚ) : Except PyErr ℚ :=
  if e.den = 1 then .ok (b ^ e.num) else .error .nonIntegerPow

/-- `reaction.unit_factor` (source lines 1032-1038):
`pow(_length[_ulen], -ldim) * pow(_moles[_umol], -mdim) / _time[_utime]`,
reading the unit defaults active at call time. -/
def unit_factor (u : UnitState) (mdim ldim : ℚ) : Except PyErr ℚ := do
  let sl ← req (lengthScale u.ulen) .keyError
  let sm ← req (molesScale u.umol) .keyError
  let st ← req (timeScale u.utime) .keyError
  let fl ← qpow sl (-ldim)
  let fm ← qpow sm (-mdim)
  .ok (fl * fm / st)

/-! ### Phases (`phase` and its subclasses, source lines 1503-2196) -/

/-- The phase kinds of the source (one per concrete `phase` subclass).
`stoichiometricLiquid` subclasses `stoichiometric_solid` and shares its
behaviour; `lattice` inherits the base `conc_dim`, `lattice_solid`
overrides it. -/
inductive PhaseKind where
  | idealGas
  | stoichiometricSolid
  | stoichiometricLiquid
  | metal
  | semiconductor
  | incompressibleSolid
  | lattice
  | latticeSolid
  | liquidVapor
  | redlichKwong
  | idealInterface
  | edgePhase
  deriving DecidableEq, Repr

/-- A constructed phase object: the fields read by the reaction compiler.
`spmap` is the species-membership dictionary built by `phase.__init__`
(species name mapped to the phase dimension, insertion order). -/
structure Phase where
  name : String
  dim : Nat
  kind : PhaseKind
  spmap : List (String × Nat)
  sitedens : ℚ := 0
  deriving DecidableEq, Repr

/-- `phase.has_species` (source lines 1624-1628): key membership in
`_spmap`. -/
def hasSpecies (ph : Phase) (s : String) : Bool :=
  hasKey ph.spmap s

/-- `is_ideal_gas`: the base class returns 0 and only `ideal_gas`
overrides it to 1 (source lines 1617-1619, 1758-1759). -/
def isIdealGas (ph : Phase) : Bool :=
  ph.kind == .idealGas

/-- `is_pure` (source lines 1621-1622): the single definition on the base
class returns 0, and NO subclass overrides the method — the subclasses
assign a `_pure` attribute that `is_pure` never reads (and assign it only
after `phase.__init__` has already returned). So `is_pure()` is 0 for
every phase object, whatever its kind. -/
def isPure (_ph : PhaseKind) : Bool :=
  false

/-- `conc_dim` per phase kind: the base class (and `ideal_gas` and
`lattice`, which do not override it) returns `(1, -dim)`; the
unit-activity kinds return `(0, 0)`; `semiconductor` and
`incompressible_solid` return the literal `(1, -3)`; `ideal_interface`
returns `(1, -2)` and `edge` returns `(1, -1)`. -/
def concDim (ph : Phase) : ℤ × ℤ :=
  match ph.kind with
  | .stoichiometricSolid | .stoichiometricLiquid | .metal
  | .latticeSolid | .liquidVapor | .redlichKwong => (0, 0)
  | .semiconductor | .incompressibleSolid => (1, -3)
  | .idealInterface => (1, -2)
  | .edgePhase => (1, -1)
  | .idealGas | .lattice => (1, -(ph.dim : ℤ))

/-- Stray-comma cleanup of one species token (source lines 1591-1593):
a leading comma is stripped, then a trailing comma. -/
def stripCommas (s : List Char) : List Char :=
  let s1 := match s with
    | ',' :: r => r
    | r => r
  match s1.getLast? with
  | some ',' => s1.dropLast
  | _ => s1

/-- Species-map construction of `phase.__init__` (source lines 1573-1597):
each species string may carry a `datasrc:` import marker (a colon at
index > 0), after which the names are whitespace-split; tokens equal to
`,` are skipped, stray commas stripped, and a repeated name other than
the wildcard `all` is a fatal error. Every surviving token (including
`all`) is mapped to the phase dimension. -/
def addSpeciesTokens (dim : Nat) (name : String) :
    List (String × Nat) → List (List Char) → Except PyErr (List (String × Nat))
  | spmap, [] => .ok spmap
  | spmap, t :: ts =>
    if t = [','] then addSpeciesTokens dim name spmap ts
    else
      let s := String.mk (stripCommas t)
      if s != "all" && hasKey spmap s then
        .error (.ctiError ("Multiply-declared species " ++ s ++ " in phase " ++ name))
      else addSpeciesTokens dim name (aset spmap s dim) ts

/-- The species names of one phase-species string, after the import-source
prefix (`datasrc:`, colon at index > 0) is removed. -/
def speciesNamesPart (sp : List Char) : List Char :=
  match findSub [':'] sp with
  | some i => if 0 < i then sp.drop (i + 1) else sp
  | none => sp

/-- `phase.__init__` (source lines 1506-1614) restricted to the fields the
reaction compiler reads: builds `_spmap` from the species strings, then
checks that it is non-empty and that a pure phase declares at most one
species. The purity check compares `self.is_pure()` — which is 0 for
every object (see `isPure`) — so its error branch is unreachable. -/
def phaseInit (kind : PhaseKind) (name : String) (dim : Nat)
    (species : List String) (sitedens : ℚ := 0) : Except PyErr Phase := do
  let spmap ← species.foldlM
    (fun acc sp => addSpeciesTokens dim name acc (splitWs (speciesNamesPart sp.data))) []
  if spmap.length = 0 then
    .error (.ctiError ("No species declared for phase " ++ name))
  else if isPure kind && spmap.length > 1 then
    .error (.ctiError "Stoichiometric phases must declare exactly one species")
  else
    .ok { name := name, dim := dim, kind := kind, spmap := spmap, sitedens := sitedens }

/-- `ideal_gas.__init__`: `phase.__init__` with dimension 3
(source lines 1711-1745). -/
def idealGasInit (name : String) (species : List String) : Except PyErr Phase :=
  phaseInit .idealGas name 3 species

/-- `stoichiometric_solid.__init__` (source lines 1762-1787): runs
`phase.__init__` with dimension 3, then requires a non-negative density.
`self._pure = 1` is assigned only after `phase.__init__` has returned, so
it plays no part in the constructor's validation. -/
def stoichiometricSolidInit (name : String) (species : List String)
    (density : ℚ) : Except PyErr Phase := do
  let ph ← phaseInit .stoichiometricSolid name 3 species
  if density < 0 then .error (.ctiError "density must be specified.")
  else .ok ph

/-- `ideal_interface.__init__`: `phase.__init__` with dimension 2 and a
site density (source lines 2107-2141). -/
def idealInterfaceInit (name : String) (species : List String)
    (site_density : ℚ) : Except PyErr Phase :=
  phaseInit .idealInterface name 2 species site_density

/-! ### Species registration (`species.__init__`, source lines 522-530) -/

/-- The global species registries: `_species` (the objects, identified
here by name) and `_speciesnames`. -/
structure SpeciesRegistry where
  speciesObjs : List String
  speciesNames : List String
  deriving DecidableEq, Repr

/-- The registration tail of `species.__init__` (source lines 522-528):
`_species.append(self)` runs FIRST, then the duplicate-name check raises,
and only on success is the name appended to `_speciesnames`. The earlier
parts of the constructor (atomic composition, charge consistency) do not
touch the registries and are outside this model's claims. -/
def speciesRegister (reg : SpeciesRegistry) (name : String) :
    SpeciesRegistry × Option PyErr :=
  let reg1 := { reg with speciesObjs := reg.speciesObjs ++ [name] }
  if name ∈ reg.speciesNames then
    (reg1, some (.ctiError ("species " ++ name ++ " multiply defined.")))
  else
    ({ reg1 with speciesNames := reg1.speciesNames ++ [name] }, none)

/-! ### Rate expressions (`Arrhenius`, source lines 880-957) -/

/-- The pre-exponential field `A` of an `Arrhenius` entry: a bare number,
a `(value, 'unitstring')` pair, or the `(value, '/site')` form. -/
inductive AVal where
  | num (a : ℚ)
  | withUnits (a : ℚ) (u : String)
  | perSite (a : ℚ)
  deriving DecidableEq, Repr

/-- The activation-energy field `E`: bare number or `(value, unit)` pair. -/
inductive EVal where
  | num (e : ℚ)
  | withUnits (e : ℚ) (u : String)
  deriving DecidableEq, Repr

/-- An `Arrhenius` object: `self._c = [A, n, E]` and
`self._type = rate_type` (coverage terms carry no claim and are not
modelled). -/
structure ArrObj where
  a : AVal
  n : ℚ
  e : EVal
  rtype : String := ""
  deriving DecidableEq, Repr

/-- The emitted `A` child: a pure number (after unit conversion or
site-density division) or a literal value with its unit string. Values
are the numbers handed to `addFloat` before `%14.6E` string formatting. -/
inductive AEmit where
  | pure (v : ℚ)
  | withUnits (v : ℚ) (u : String)
  deriving DecidableEq, Repr

/-- The emitted `Arrhenius` node (attributes and numeric children). -/
structure ArrRecord where
  nameAttr : Option String
  typeAttr : Option String
  speciesAttr : Option String
  aEmit : AEmit
  b : ℚ
  eEmit : ℚ × String
  deriving DecidableEq, Repr

/-- `E` emission: `addFloat(a, 'E', self._c[2], defunits = _ue)` — a bare
number gets the CURRENT activation-energy default unit attached; a
`(value, unit)` pair passes through. -/
def emitE (u : UnitState) : EVal → ℚ × String
  | .num e => (e, u.ue)
  | .withUnits e s => (e, s)

/-- `Arrhenius.build` (source lines 910-956). A nonempty `rate_type` is
written as the `type` attribute; for `'stick'` the reaction must have
exactly one gas-phase reactant, whose name becomes the `species`
attribute, and `units_factor` is overwritten with 1.0. A bare-number `A`
is multiplied by the (possibly overwritten) units factor; the `/site`
form divides by the governing phase's site density (an `AttributeError`
if the reaction has no governing phase, since `rxn_phase` is `None`); a
`(value, unit)` pair passes through unconverted. -/
def arrheniusBuild (u : UnitState) (o : ArrObj) (unitsFactor : ℚ)
    (gasSpecies : List String) (nameAttr : Option String)
    (rxnPhase : Option Phase) : Except PyErr ArrRecord := do
  let (typeAttr, speciesAttr, uf) ←
    if o.rtype != "" then
      if o.rtype = "stick" then
        match gasSpecies with
        | [g] => .ok (some o.rtype, some g, (1 : ℚ))
        | _ => .error (.ctiError "Sticking probabilities can only be used for reactions with one gas-phase reactant")
      else .ok (some o.rtype, none, unitsFactor)
    else .ok (none, none, unitsFactor)
  let aEmit ←
    match o.a with
    | .num a => .ok (AEmit.pure (a * uf))
    | .perSite a =>
      match rxnPhase with
      | none => .error .attributeError
      | some ph => .ok (AEmit.pure (a / ph.sitedens))
    | .withUnits a us => .ok (AEmit.withUnits a us)
  .ok { nameAttr := nameAttr, typeAttr := typeAttr, speciesAttr := speciesAttr,
        aEmit := aEmit, b := o.n, eEmit := emitE u o.e }

/-- A rate-coefficient entry as supplied to a reaction: either a bare
`[A, n, E]` triple (wrapped into a fresh `Arrhenius` by `reaction.build`)
or an explicit `Arrhenius` instance. -/
inductive RateSpec where
  | triple (a n e : ℚ)
  | inst (o : ArrObj)
  deriving DecidableEq, Repr

/-- `reaction.build`'s per-entry coercion (source lines 1160-1163). -/
def toArrObj : RateSpec → ArrObj
  | .triple a n e => { a := .num a, n := n, e := .num e }
  | .inst o => o

/-! ### The reaction compiler (`reaction.build`, source lines 1040-1181) -/

/-- The reaction-type tags of the source: `''` for the base `reaction`
class, and the `_type` strings of the subclasses. -/
inductive RxnType where
  | elementary
  | threeBody
  | falloff
  | plog
  | chebyshev
  | surface
  | edgeRxn
  deriving DecidableEq, Repr

/-- Accumulator state of the per-reactant dimensional scan. `dims` is the
source's `self._dims = [0]*4`, indexed by phase dimension. -/
structure DimState where
  mdim : ℚ
  ldim : ℚ
  igspecies : List String
  rxnph : List Phase
  dims : List Nat
  rxnphase : Option Phase
  deriving DecidableEq, Repr

/-- Initial scan state (`self.mdim = 0`, `self.ldim = 0`, empty lists). -/
def dimInit : DimState :=
  { mdim := 0, ldim := 0, igspecies := [], rxnph := [], dims := [0, 0, 0, 0],
    rxnphase := none }

/-- One reactant of the scan (source lines 1059-1083): find the first
registered phase containing the species (fatal "species not found" when
none does), append gas-phase reactants to `_igspecies`, and on the first
touch of a phase record it in `rxnph`, bump the per-dimension counter,
and update `_rxnphase`.

Faithfulness note on `mindim`: the source re-initializes `mindim = 4`
INSIDE the per-reactant loop, and the inner phase scan `break`s at the
first match, so the guard `ph._dim < mindim` is always a comparison
against 4 — every newly-touched phase overwrites `_rxnphase`,
whatever its dimension. That guard is transcribed literally below. -/
def dimStep (phases : List Phase) (st : DimState) (s : String) (ns : ℚ) :
    Except PyErr DimState :=
  match phases.find? (fun ph => hasSpecies ph s) with
  | none => .error (.ctiError ("species " ++ s ++ " not found"))
  | some ph =>
    let (nm, nl) := concDim ph
    let st1 := if isIdealGas ph then { st with igspecies := st.igspecies ++ [s] } else st
    let st2 :=
      if ph ∈ st1.rxnph then st1
      else
        { st1 with
          rxnph := st1.rxnph ++ [ph]
          dims := st1.dims.set ph.dim (st1.dims.getD ph.dim 0 + 1)
          rxnphase := if ph.dim < 4 then some ph else st1.rxnphase }
    .ok { st2 with mdim := st2.mdim + (nm : ℚ) * ns, ldim := st2.ldim + (nl : ℚ) * ns }

/-- The full reactant scan: fold `dimStep` over the reactant map in
iteration order, reading each species' reaction order from `_rxnorder`
(`ns = self._rxnorder[s]`; the key is always present because `_rxnorder`
starts as a copy of `_r`). -/
def dimPass (phases : List Phase) (reactants rxnorder : List (String × ℚ)) :
    Except PyErr DimState :=
  reactants.foldlM (fun st p => dimStep phases st p.1 (alookup rxnorder p.1 0)) dimInit

/-- The post-scan dimension adjustment (source lines 1111-1129): surface
reactions use `mdim -= 1, ldim += 2` and admit at most one 2-D phase and
no lower-dimensional one; edge reactions use `mdim -= 1, ldim += 1` and
admit at most one 1-D phase and no 0-D one; every other type uses
`mdim -= 1, ldim += 3`. -/
def typeAdjust (ty : RxnType) (st : DimState) (equation : String) :
    Except PyErr (ℚ × ℚ) :=
  match ty with
  | .surface =>
    if st.dims.getD 0 0 ≠ 0 || st.dims.getD 1 0 ≠ 0 || st.dims.getD 2 0 > 1 then
      .error (.ctiError (equation ++ " A surface reaction may contain at most one surface phase."))
    else .ok (st.mdim - 1, st.ldim + 2)
  | .edgeRxn =>
    if st.dims.getD 0 0 ≠ 0 || st.dims.getD 1 0 > 1 then
      .error (.ctiError (equation ++ " An edge reaction may contain at most one edge phase."))
    else .ok (st.mdim - 1, st.ldim + 1)
  | _ => .ok (st.mdim - 1, st.ldim + 3)

/-- The rate-coefficient emission loop (source lines 1159-1171): each
entry is built with `self.unit_factor()` evaluated at the CURRENT
`mdim`/`ldim`; after each entry of a falloff reaction the source applies
`mdim += 1, ldim -= 3` and switches the name attribute to `'k0'`, so the
low-pressure (second) coefficient is converted with the shifted
dimensions. -/
def emitRateCoeffs (u : UnitState) (ty : RxnType) (ig : List String)
    (rxnphase : Option Phase) :
    List RateSpec → ℚ → ℚ → Option String → Except PyErr (List ArrRecord)
  | [], _, _, _ => .ok []
  | kf :: rest, m, l, nm => do
    let uf ← unit_factor u m l
    let entry ← arrheniusBuild u (toArrObj kf) uf ig nm rxnphase
    let (m1, l1, nm1) :=
      if ty = .falloff then (m + 1, l - 3, some "k0") else (m, l, nm)
    let rest1 ← emitRateCoeffs u ty ig rxnphase rest m1 l1 nm1
    .ok (entry :: rest1)

/-! ### Per-subclass reactant/product cleanup (run in the subclass
`__init__`, after `reaction.__init__` has parsed the equation) -/

/-- `three_body_reaction.__init__` cleanup (source lines 1221-1227):
delete the tokens `M`/`m` from a side when present (no error when
absent, since the loop only deletes keys it finds). -/
def threeBodyClean (d : List (String × ℚ)) : List (String × ℚ) :=
  d.filter (fun p => p.1 != "M" && p.1 != "m")

/-- The explicit-named-third-body loop of `falloff_reaction.__init__`
(source lines 1290-1300): walk the reactant keys; a key that ends in `)`
and contains no `(` names the third body. Supplying such a token together
with an `efficiencies=` argument is a fatal conflict; otherwise the
efficiency string becomes `name:1.0` with default 0.0 and the token is
deleted from both sides (a `KeyError` if the products lack it). -/
def falloffNamedLoop (keys : List String) (r p : List (String × ℚ))
    (eff : String) (effm : ℚ) :
    Except PyErr (List (String × ℚ) × List (String × ℚ) × String × ℚ) :=
  match keys with
  | [] => .ok (r, p, eff, effm)
  | k :: ks =>
    if k.data.getLast? = some ')' && (findSub ['('] k.data).isNone then
      if eff != "" then
        .error (.ctiError ("(+ " ++ k.dropRight 1 ++ ") and " ++ eff ++ " cannot both be specified"))
      else do
        let eff1 := k.dropRight 1 ++ ":1.0"
        let r1 ← delKey r k
        let p1 ← delKey p k
        falloffNamedLoop ks r1 p1 eff1 0
    else falloffNamedLoop ks r p eff effm

/-- `falloff_reaction.__init__` cleanup (source lines 1281-1300): delete
the token `(+` from both sides (a `KeyError` when an equation was written
without the space, e.g. `'A (+M) <=> B (+M)'`, whose side tokenizes as
`'(+M)'` in one piece); then remove a `M)`/`m)` token from both sides if
present (leaving the efficiency default `_effm` at 1.0), and otherwise
scan for an explicit named third body. Returns the cleaned sides, the
efficiency string and the efficiency default. -/
def falloffClean (r p : List (String × ℚ)) (eff : String) :
    Except PyErr (List (String × ℚ) × List (String × ℚ) × String × ℚ) := do
  let r1 ← delKey r "(+"
  let p1 ← delKey p "(+"
  if hasKey r1 "M)" then do
    let r2 ← delKey r1 "M)"
    let p2 ← delKey p1 "M)"
    .ok (r2, p2, eff, 1)
  else if hasKey r1 "m)" then do
    let r2 ← delKey r1 "m)"
    let p2 ← delKey p1 "m)"
    .ok (r2, p2, eff, 1)
  else
    falloffNamedLoop (r1.map (fun q => q.1)) r1 p1 eff 1

/-- `chebyshev_reaction.__init__` cleanup (source lines 1376-1384):
delete `(+` from both sides unconditionally, then `M)` and `m)` when the
reactant side has them (two independent `if`s in the source). -/
def chebyshevClean (r p : List (String × ℚ)) :
    Except PyErr (List (String × ℚ) × List (String × ℚ)) := do
  let r1 ← delKey r "(+"
  let p1 ← delKey p "(+"
  let (r2, p2) ←
    if hasKey r1 "M)" then do
      let ra ← delKey r1 "M)"
      let pa ← delKey p1 "M)"
      Except.ok (ra, pa)
    else Except.ok (r1, p1)
  if hasKey r2 "m)" then do
    let rb ← delKey r2 "m)"
    let pb ← delKey p2 "m)"
    Except.ok (rb, pb)
  else Except.ok (r2, p2)

/-! ### Reaction-order overrides (`getPairs` and `reaction.__init__`
lines 1016-1023) -/

/-- `getPairs` (source lines 962-968): whitespace-split, then each token
must contain exactly one colon (`key, val = t.split(':')`, a fatal
`ValueError` otherwise), the value converted by `float` (an uncaught
`ValueError` when malformed). -/
def getPairs (s : String) : Except PyErr (List (String × ℚ)) :=
  (splitWs s.data).foldlM
    (fun m t => do
      let i ← req (findSub [':'] t) .valueError
      let key := String.mk (t.take i)
      let valToks := t.drop (i + 1)
      if (findSub [':'] valToks).isSome then .error .valueError
      else do
        let v ← req (parseFloat valToks) .valueError
        .ok (aset m key v))
    []

/-- The `_rxnorder` construction (source lines 1016-1023): a copy of the
reactant map, with each `order=` pair overriding the coefficient of an
existing reactant — naming a non-reactant is fatal. -/
def applyOrder (r : List (String × ℚ)) (order : String) :
    Except PyErr (List (String × ℚ)) :=
  if order = "" then .ok r
  else do
    let prs ← getPairs order
    prs.foldlM
      (fun acc q =>
        if hasKey acc q.1 then .ok (aset acc q.1 q.2)
        else .error (.ctiError ("order specified for non-reactant: " ++ q.1)))
      r

/-! ### The assembled reaction pipeline -/

/-- A reaction declaration: the constructor arguments of the `reaction`
subclass selected by `ty`. For a falloff reaction `kf` is the pair
`[kf_inf, kf_0]` in the order `reaction.build` iterates it (the
constructor stores `kf2 = (kf, kf0)`); for plog it is the per-pressure
list; for chebyshev it is ignored (`build` replaces `_kf` with `[]`). -/
structure ReactionInput where
  equation : String
  kf : List RateSpec := []
  ty : RxnType := .elementary
  order : String := ""
  eff : String := ""
  deriving DecidableEq, Repr

/-- The observable result of compiling one reaction: the reversibility
flag, the cleaned reactant/product maps, the dimension accumulators as
they stand when the first rate coefficient is converted, the governing
phase and touched-phase bookkeeping, the emitted rate-coefficient nodes,
and the emitted efficiency table (value string and `default` attribute),
when any. -/
structure ReactionOutput where
  rev : Bool
  reactants : List (String × ℚ)
  products : List (String × ℚ)
  mdimOut : ℚ
  ldimOut : ℚ
  igspecies : List String
  rxnphList : List Phase
  rxnphase : Option Phase
  coeffs : List ArrRecord
  effTable : Option (String × ℚ)
  deriving DecidableEq, Repr

/-- Construction plus emission of a single reaction, as the source runs
them: `reaction.__init__` (equation split, side parsing, `_rxnorder`
with order overrides), the subclass cleanup, then `reaction.build` under
the unit defaults `u` active at emission time (dimensional scan, type
adjustment, the three-body shift, the rate-coefficient loop with its
falloff shift, and the subclass efficiency-table emission). The
pressure-table child of plog and the Chebyshev coefficient matrix (whose
`log10(unit_factor)` correction is irrational) carry no claim and are
not modelled. -/
def reactionCompile (phases : List Phase) (u : UnitState) (ri : ReactionInput) :
    Except PyErr ReactionOutput := do
  let (rside, pside, rev) ← splitEquation ri.equation.data
  let r0 := getReactionSpecies rside
  let p0 := getReactionSpecies pside
  let rxnorder ← applyOrder r0 ri.order
  let (r1, p1, eff, effm) ←
    match ri.ty with
    | .threeBody => .ok (threeBodyClean r0, threeBodyClean p0, ri.eff, (1 : ℚ))
    | .falloff => falloffClean r0 p0 ri.eff
    | .chebyshev => do
      let (ra, pa) ← chebyshevClean r0 p0
      Except.ok (ra, pa, ri.eff, (1 : ℚ))
    | _ => .ok (r0, p0, ri.eff, (1 : ℚ))
  let st ← dimPass phases r1 rxnorder
  let (m1, l1) ← typeAdjust ri.ty st ri.equation
  let (m2, l2) :=
    if ri.ty = .threeBody then (m1 + 1, l1 - 3) else (m1, l1)
  let kfs := if ri.ty = .chebyshev then [] else ri.kf
  let coeffs ← emitRateCoeffs u ri.ty st.igspecies st.rxnphase kfs m2 l2 none
  let effTable : Option (String × ℚ) :=
    match ri.ty with
    | .threeBody => if eff != "" then some (eff, effm) else none
    | .falloff => if eff != "" && 0 ≤ effm then some (eff, effm) else none
    | _ => none
  .ok { rev := rev, reactants := r1, products := p1, mdimOut := m2, ldimOut := l2,
        igspecies := st.igspecies, rxnphList := st.rxnph, rxnphase := st.rxnphase,
        coeffs := coeffs, effTable := effTable }

/-! ### Input-script semantics (declaration phase, then emission)

The source loads the whole input first — `units(...)` directives mutate
the global defaults, constructors append to the global registries — and
only afterwards does `write()` run every `build`, so each reaction is
emitted under the unit defaults left active at the END of the input. -/

/-- One declarative input statement touching this model. -/
inductive Stmt where
  | unitsStmt (args : UnitsArgs)
  | rxnStmt (ri : ReactionInput)
  deriving DecidableEq, Repr

/-- The declaration phase: fold the statements, updating the unit state
and collecting the declared reactions in order. `reaction.__init__` does
not read the unit globals, so nothing of the construction-time unit
state is recorded — exactly as in the source. -/
def runDecls (stmts : List Stmt) : UnitState × List ReactionInput :=
  stmts.foldl
    (fun acc st =>
      match st with
      | .unitsStmt a => (applyUnits acc.1 a, acc.2)
      | .rxnStmt ri => (acc.1, acc.2 ++ [ri]))
    (initUnits, [])

/-- The emission phase (`write()` then `reaction.build` per reaction):
every reaction is compiled under the final unit state. -/
def runScript (phases : List Phase) (stmts : List Stmt) :
    Except PyErr (List ReactionOutput) :=
  let (u, rxns) := runDecls stmts
  rxns.mapM (reactionCompile phases u)

/-! ### Concrete test fixtures for the claims -/

/-- A 3-D ideal-gas phase owning species `A`, `B`, `C`
(the value `idealGasInit "gas" ["A B C"]` constructs). -/
def gasPhaseABC : Phase :=
  { name := "gas", dim := 3, kind := .idealGas, spmap := [("A", 3), ("B", 3), ("C", 3)] }

theorem gasPhaseABC_fromInit : idealGasInit "gas" ["A B C"] = .ok gasPhaseABC := by
  with_unfolding_all rfl

/-- The bimolecular elementary reaction `A + B => C` with a bare-number
rate triple. -/
def c1Rxn : ReactionInput :=
  { equation := "A + B => C", kf := [.triple 1 0 0] }

/-- Unit defaults cm / mol / s (`units(length='cm', quantity='mol')`
with times left at seconds), plus an activation-energy string. -/
def cmMolS : UnitState :=
  { ulen := "cm", umol := "mol", utime := "s", ue := "cal/mol" }

/-- The `units(length='cm', quantity='mol', time='s')` directive. -/
def cmMolArgs : UnitsArgs :=
  { length := some "cm", quantity := some "mol", time := some "s" }

/-- A 2-D interface phase owning `Asp` (site density 3). -/
def surfPhaseA : Phase :=
  { name := "surf", dim := 2, kind := .idealInterface, spmap := [("Asp", 2)], sitedens := 3 }

theorem surfPhaseA_fromInit : idealInterfaceInit "surf" ["Asp"] 3 = .ok surfPhaseA := by
  with_unfolding_all rfl

/-- A 3-D ideal-gas phase owning `Bsp`. -/
def gasPhaseB : Phase :=
  { name := "gas2", dim := 3, kind := .idealGas, spmap := [("Bsp", 3)] }

/-- A surface reaction whose first reactant lives in the 2-D phase and
whose second lives in the 3-D one. -/
def c2Rxn : ReactionInput :=
  { equation := "Asp + Bsp => Csp", kf := [.triple 1 0 0], ty := .surface }

/-- A falloff rate pair (high-pressure limit first), in `reaction.build`'s
iteration order. -/
def falloffKf : List RateSpec :=
  [.triple 1 0 0, .triple 2 0 0]

/-- Projection of a compiled reaction to the data the dimensional-analysis
claims observe: the dimension accumulators and the converted `A` values. -/
def dimView (o : ReactionOutput) : ℚ × ℚ × List AEmit :=
  (o.mdimOut, o.ldimOut, o.coeffs.map (fun c => c.aEmit))

/-- Projection to the falloff-efficiency observables. -/
def effView (o : ReactionOutput) : List (String × ℚ) × List (String × ℚ) × Option (String × ℚ) :=
  (o.reactants, o.products, o.effTable)

/-! ### Reconstruction property of `findSub` (used for claim C5) -/

theorem findSub_reconstruct (d : List Char) :
    ∀ (s : List Char) (i : Nat), findSub d s = some i →
      s.take i ++ d ++ s.drop (i + d.length) = s := by
  intro s
  induction s with
  | nil =>
    intro i h
    unfold findSub at h
    by_cases hd : d.isEmpty = true
    · rw [if_pos hd] at h
      cases h
      simp [List.isEmpty_iff.mp hd]
    · rw [if_neg hd] at h
      cases h
  | cons c t ih =>
    intro i h
    unfold findSub at h
    by_cases hp : d.isPrefixOf (c :: t) = true
    · rw [if_pos hp] at h
      cases h
      obtain ⟨u, hu⟩ := List.isPrefixOf_iff_prefix.mp hp
      simp only [List.take_zero, List.nil_append, Nat.zero_add]
      rw [← hu, List.drop_left]
    · rw [if_neg hp] at h
      obtain ⟨j, hj, hji⟩ := Option.map_eq_some'.mp h
      subst hji
      have hrec := ih j hj
      have harith : j + 1 + d.length = (j + d.length) + 1 := by omega
      rw [List.take_succ_cons, harith, List.drop_succ_cons]
      simpa using congrArg (c :: ·) hrec

/-! ### Claim theorems -/

/-- C5, counterexample: the equation `'A => B => C'` contains the
priority-chosen delimiter `'=>'`, yet the source does not split it there —
`r, p = self._e.split('=>')` unpacks three parts and dies with a
`ValueError` — refuting the claim that every reaction-equation string is
split at the first delimiter found. -/
theorem c5_counterexample :
    firstDelim "A => B => C".data = some "=>".data ∧
      splitEquation "A => B => C".data = .error .valueError :=
  ⟨by with_unfolding_all rfl, by with_unfolding_all rfl⟩

/-- C5, amended: whenever the source does split an equation (the chosen
delimiter occurs exactly once), the delimiter is the first of
`'<=>'`, `'=>'`, `'='` in priority order that occurs in the string, the
two sides concatenate with it back to the original equation, and the
reversible flag is true exactly for `'<=>'` and bare `'='` and false for
`'=>'`. -/
theorem c5_amended (s r p : List Char) (rev : Bool)
    (h : splitEquation s = .ok (r, p, rev)) :
    ∃ d, firstDelim s = some d ∧ r ++ d ++ p = s ∧
      rev = (d == "<=>".data || d == "=".data) := by
  unfold splitEquation at h
  cases hfd : firstDelim s with
  | none => rw [hfd] at h; cases h
  | some d =>
    rw [hfd] at h
    dsimp only at h
    cases hfs : findSub d s with
    | none => rw [hfs] at h; cases h
    | some i =>
      rw [hfs] at h
      dsimp only at h
      by_cases htwice : (findSub d (s.drop (i + d.length))).isSome = true
      · rw [if_pos htwice] at h; cases h
      · rw [if_neg htwice] at h
        obtain ⟨h1, h2, h3⟩ :
            s.take i = r ∧ s.drop (i + d.length) = p ∧
              (d == "<=>".data || d == "=".data) = rev := by
          cases h; exact ⟨rfl, rfl, rfl⟩
        exact ⟨d, rfl, by rw [← h1, ← h2]; exact findSub_reconstruct d s i hfs, h3.symm⟩

/-- C5, witness for the amended theorem at `'A <=> B'`. -/
theorem c5_amended_witness :
    ∃ d, firstDelim "A <=> B".data = some d ∧
      "A ".data ++ d ++ " B".data = "A <=> B".data ∧
      true = (d == "<=>".data || d == "=".data) :=
  c5_amended "A <=> B".data "A ".data " B".data true (by with_unfolding_all rfl)

/-- C6: parsing one reaction side walks the whitespace tokens (isolated
`+` tokens removed) with a pending coefficient starting at 1.0 — numeric
tokens set the pending coefficient, other tokens are species whose
accumulated coefficients grow by it (repeated species sum) — so
`'CH3 + 3 H + 5.2 O2 + 0.7 H'` yields exactly
`CH3 : 1.0, H : 3.7, O2 : 5.2`, and `'H + H'` yields `H : 2`. -/
theorem c6_parse_side :
    getReactionSpeciesS "CH3 + 3 H + 5.2 O2 + 0.7 H"
        = [("CH3", 1), ("H", 37 / 10), ("O2", 26 / 5)] ∧
      getReactionSpeciesS "H + H" = [("H", 2)] :=
  ⟨by with_unfolding_all rfl, by with_unfolding_all rfl⟩

/-- C7, code evaluation at the failing input: a negative numeric token
does NOT abort parsing. The `raise CTI_Error(...)` sits inside the very
`try:` whose bare `except:` implements the species-name fallback, so the
exception is swallowed (only the constructor's diagnostic print escapes)
and the token `'-1.5'` is recorded in the map as a species with
coefficient -1.5 — contradicting the claim that a fatal error is raised
and the token kept out of the map. -/
theorem c7_code_eval :
    getReactionSpeciesS "NO2 + -1.5 O2" = [("NO2", 1), ("-1.5", -(3 / 2)), ("O2", 1)] := by
  with_unfolding_all rfl

/-- C3, code evaluation: a stoichiometric (pure) solid declaring TWO
species is accepted without any error — `phase.__init__` guards the
cardinality check with `self.is_pure()`, which returns 0 for every object
because no subclass overrides the method (they only set a `_pure`
attribute it never reads, after the base constructor has finished) — while
a single-species declaration succeeds as claimed. -/
theorem c3_code_eval :
    stoichiometricSolidInit "twoSp" ["A B"] 1 =
        .ok { name := "twoSp", dim := 3, kind := .stoichiometricSolid,
              spmap := [("A", 3), ("B", 3)] } ∧
      stoichiometricSolidInit "oneSp" ["A"] 1 =
        .ok { name := "oneSp", dim := 3, kind := .stoichiometricSolid,
              spmap := [("A", 3)] } :=
  ⟨by with_unfolding_all rfl, by with_unfolding_all rfl⟩

/-- C9: registering a species whose name is already declared appends the
new object to the global `_species` list FIRST and only then raises the
`multiply defined` error, leaving the duplicate object in the registry
while the name list stays unchanged. -/
theorem c9_register_order (reg : SpeciesRegistry) (nm : String)
    (h : nm ∈ reg.speciesNames) :
    speciesRegister reg nm =
      ({ reg with speciesObjs := reg.speciesObjs ++ [nm] },
        some (.ctiError ("species " ++ nm ++ " multiply defined."))) := by
  simp [speciesRegister, h]

/-- C9, witness: a registry already holding `H2`. -/
theorem c9_register_order_witness :
    speciesRegister { speciesObjs := ["H2"], speciesNames := ["H2"] } "H2" =
      ({ speciesObjs := ["H2", "H2"], speciesNames := ["H2"] },
        some (.ctiError "species H2 multiply defined.")) :=
  c9_register_order { speciesObjs := ["H2"], speciesNames := ["H2"] } "H2" (by decide)

/-- C10: a sticking-probability (`rate_type = 'stick'`) Arrhenius entry of
a reaction with exactly one gas-phase reactant emits its bare-number
pre-exponential UNCHANGED — the units factor passed in (whatever value the
unit defaults and reaction dimensionality produced) is overwritten by 1.0
— and records the single gas species' name in the `species` attribute. -/
theorem c10_stick (u : UnitState) (aq nq : ℚ) (ev : EVal) (uf : ℚ)
    (g : String) (nma : Option String) (rph : Option Phase) :
    arrheniusBuild u { a := .num aq, n := nq, e := ev, rtype := "stick" } uf [g] nma rph =
      .ok { nameAttr := nma, typeAttr := some "stick", speciesAttr := some g,
            aEmit := .pure aq, b := nq, eEmit := emitE u ev } := by
  conv_rhs => rw [← mul_one aq]
  with_unfolding_all rfl

/-- C2, code evaluation at the failing input: for the surface reaction
`Asp + Bsp => Csp` with `Asp` in a 2-D interface phase and `Bsp` in a 3-D
gas phase (registry order `[surf, gas]`, reactant iteration `Asp` then
`Bsp`), the compiler records the GAS phase as `_rxnphase`, even though the
2-D phase it touched has the strictly smaller dimension. The source
re-initializes `mindim = 4` inside the per-reactant loop, so every newly
touched phase overwrites `_rxnphase` and the last one wins, whatever its
dimension — refuting the smallest-dimension rule of the claim. -/
theorem c2_code_eval :
    (reactionCompile [surfPhaseA, gasPhaseB] initUnits c2Rxn).map
        (fun o => (o.rxnphase, o.rxnphList)) =
      .ok (some gasPhaseB, [surfPhaseA, gasPhaseB]) ∧
      surfPhaseA.dim < gasPhaseB.dim :=
  ⟨by with_unfolding_all rfl, by decide⟩

/-- C4, counterexample: the claim's own example equation
`'A (+M) <=> B (+M)'` (no space after `(+`) makes the falloff constructor
die with a `KeyError`: the side tokenizes as the single token `'(+M)'`,
so `del self._r['(+']` finds no such key. No efficiency table with
default 1.0 is ever produced. -/
theorem c4_counterexample :
    reactionCompile [] initUnits
        { equation := "A (+M) <=> B (+M)", kf := falloffKf, ty := .falloff } =
      .error .keyError := by
  with_unfolding_all rfl

/-- C4, amended: with the space the source's tokenizer expects,
`'A (+ M) <=> B (+ M)'` leaves the efficiency default at 1.0 — the table
is emitted (with that default) only when an `efficiencies` string is
supplied, and is absent otherwise — while `'A (+ Ar) <=> B (+ Ar)'`
produces a table containing exactly `Ar:1.0` with default 0.0; in both
forms the `'(+'` and `'M)'`/`'Ar)'` tokens are removed from the reactant
and product multisets. -/
theorem c4_amended :
    (reactionCompile [gasPhaseABC] initUnits
          { equation := "A (+ M) <=> B (+ M)", kf := falloffKf, ty := .falloff }).map effView =
        .ok ([("A", 1)], [("B", 1)], none) ∧
      (reactionCompile [gasPhaseABC] initUnits
          { equation := "A (+ M) <=> B (+ M)", kf := falloffKf, ty := .falloff,
            eff := "H2:2.0" }).map effView =
        .ok ([("A", 1)], [("B", 1)], some ("H2:2.0", 1)) ∧
      (reactionCompile [gasPhaseABC] initUnits
          { equation := "A (+ Ar) <=> B (+ Ar)", kf := falloffKf, ty := .falloff }).map effView =
        .ok ([("A", 1)], [("B", 1)], some ("Ar:1.0", 0)) :=
  ⟨by with_unfolding_all rfl, by with_unfolding_all rfl, by with_unfolding_all rfl⟩

/-- C8: the pre-exponential conversion reads the unit defaults active at
emission time, not at declaration time. A `units` directive placed after
a reaction declaration produces exactly the same output as the same
directive placed before it (first conjunct, for every directive pair,
reaction and phase registry); concretely, the bimolecular reaction
declared under the initial m/kmol/s defaults but emitted after
`units(length='cm', quantity='mol', time='s')` has its bare `A = 1`
scaled by 1/1000 — the cm/mol factor — where emission without the late
directive scales it by 1. -/
theorem c8_emission_uses_final_units :
    (∀ (a1 a2 : UnitsArgs) (ri : ReactionInput) (phases : List Phase),
        runScript phases [.unitsStmt a1, .rxnStmt ri, .unitsStmt a2] =
          runScript phases [.unitsStmt a1, .unitsStmt a2, .rxnStmt ri]) ∧
      (runScript [gasPhaseABC] [.rxnStmt c1Rxn, .unitsStmt cmMolArgs]).map
          (fun os => os.map dimView) =
        .ok [(1, -3, [.pure (1 / 1000)])] ∧
      (runScript [gasPhaseABC] [.rxnStmt c1Rxn]).map (fun os => os.map dimView) =
        .ok [(1, -3, [.pure 1])] ∧
      ((1 : ℚ) / 1000 ≠ 1) :=
  ⟨fun _ _ _ _ => rfl, by with_unfolding_all rfl, by with_unfolding_all rfl,
    by with_unfolding_all decide⟩

/-- C1, counterexample: for the elementary bimolecular gas reaction
`A + B => C` under cm/mol/s defaults, the dimensional pass accumulates
`mdim = 1` but `ldim = -3` — not the claimed `+3` — and the emitted
conversion factor is 1/1000 (= 0.01³ / 0.001, i.e. cm³/mol/s into
m³/kmol/s), which differs from the claim's
`length_scale^-3 * quantity_scale^-1 / time_scale` = 10⁹. -/
theorem c1_counterexample :
    (reactionCompile [gasPhaseABC] cmMolS c1Rxn).map dimView =
        .ok (1, -3, [.pure (1 / 1000)]) ∧
      ((-3 : ℚ) ≠ 3) ∧
      ((1 : ℚ) / 1000 ≠
        (1 / 100 : ℚ) ^ (-(3 : ℤ)) * (1 / 1000 : ℚ) ^ (-(1 : ℤ)) / 1) :=
  ⟨by with_unfolding_all rfl, by decide, by with_unfolding_all decide⟩

/-- C1, amended: for the elementary bimolecular reaction `A + B => C`
(unit coefficients, no order overrides, both reactants in a 3-D ideal-gas
phase) the dimensional pass produces `mdim = 1` and `ldim = -3`, so the
conversion factor `length_scale^(-ldim) * quantity_scale^(-mdim) /
time_scale` equals `length_scale^3 * quantity_scale^-1 / time_scale`,
for every combination of recognized default units. -/
theorem c1_amended (ul um ut ue : String) (sl sm st : ℚ)
    (hl : lengthScale ul = some sl) (hm : molesScale um = some sm)
    (ht : timeScale ut = some st) :
    (reactionCompile [gasPhaseABC] ⟨ul, um, ut, ue⟩ c1Rxn).map dimView =
      .ok (1, -3, [.pure (sl ^ (3 : ℤ) * sm ^ (-1 : ℤ) / st)]) := by
  unfold lengthScale at hl
  unfold molesScale at hm
  unfold timeScale at ht
  split at hl <;> split at hm <;> split at ht <;>
    (try cases hl) <;> (try cases hm) <;> (try cases ht) <;>
    with_unfolding_all rfl

/-- C1, witness for the amended theorem at cm/mol/s defaults. -/
theorem c1_amended_witness :
    (reactionCompile [gasPhaseABC] ⟨"cm", "mol", "s", "cal/mol"⟩ c1Rxn).map dimView =
      .ok (1, -3, [.pure ((1 / 100 : ℚ) ^ (3 : ℤ) * (1 / 1000 : ℚ) ^ (-1 : ℤ) / 1)]) :=
  c1_amended "cm" "mol" "s" "cal/mol" (1 / 100) (1 / 1000) 1 rfl rfl rfl

end Ctml
